import Mathlib

/-!
Verification of the on-demand ComfyUI lifecycle controller and job
dispatcher: a shallow embedding of the three Python modules of the
`job-dispatcher` service.

The modules are:

* `instance_manager.py` — GCE instance lifecycle controller (namespace `IM`);
* `runpod_manager.py` — RunPod pod lifecycle controller (namespace `RP`);
* `main.py` — job dispatcher with `push_metadata` and `render` (namespace `MAIN`).

Provider interactions (Google Compute / RunPod API calls, object storage)
are modelled by explicit environments carrying each call's outcome, and
every operation additionally returns the list of provider events it issued,
in order, so that call-count and ordering properties can be stated.
-/

namespace OnDemandSD

/-- Does the first list start with the second one (character lists)? -/
def startsWithL : List Char → List Char → Bool
  | _, [] => true
  | [], _ :: _ => false
  | a :: as, b :: bs => a == b && startsWithL as bs

/-- Does the second list contain the first as a contiguous run? -/
def hasInfixL (pat : List Char) : List Char → Bool
  | [] => pat.isEmpty
  | c :: rest => startsWithL (c :: rest) pat || hasInfixL pat rest

/-- Python `pat in hay` on strings. -/
def strContains (hay pat : String) : Bool :=
  hasInfixL pat.toList hay.toList

/-- Python `s.endswith(suf)`. -/
def strEndsWith (s suf : String) : Bool :=
  startsWithL s.toList.reverse suf.toList.reverse

/-- Python `s.upper()` (ASCII, as used on provider status strings). -/
def strUpper (s : String) : String :=
  ⟨s.toList.map (fun c => if 'a' ≤ c ∧ c ≤ 'z' then Char.ofNat (c.toNat - 32) else c)⟩

/-- Python `s.lower()` (ASCII, as used on provider error messages). -/
def strLower (s : String) : String :=
  ⟨s.toList.map (fun c => if 'A' ≤ c ∧ c ≤ 'Z' then Char.ofNat (c.toNat + 32) else c)⟩

/-- Python exceptions that can cross the provider boundary:
`googleapiclient.errors.HttpError` (with `e.resp.status` and a textual
content), `RuntimeError` raised by the operation-wait loops, and any
other exception. -/
inductive PyErr
  | http (respStatus : Nat) (content : String)
  | runtime (msg : String)
  | other (msg : String)
deriving DecidableEq

/-- Python `str(e)` as used by the handlers (the textual content of the
error). -/
def strOfErr : PyErr → String
  | .http _ c => c
  | .runtime m => m
  | .other m => m

/-- One `zoneOperations().get` response: a status string and the optional
embedded `error` field. -/
structure OpResult where
  status : String
  error : Option String
deriving DecidableEq

/-- Outcome of running a piece of Python code: normal value, raised
exception, or divergence (an unbounded `while True` loop). -/
inductive Outcome (α : Type)
  | ok (a : α)
  | err (e : PyErr)
  | hang
deriving DecidableEq

/-- Body of a `setMetadata` request: the optimistic-concurrency
fingerprint and the full replacement item list. -/
structure MetaBody where
  fingerprint : String
  items : List (String × Option String)
deriving DecidableEq

/-- The provider's view of a GCE instance record as consumed by the code:
the raw `status` field (absent ⇒ the code substitutes `"UNKNOWN"`), the
network interfaces' `natIP` entries, and the current metadata with its
fingerprint. -/
structure InstRecord where
  status : Option String
  natIPs : List (List (Option String))
  metadataFingerprint : String
  metadataItems : List (String × Option String)
deriving DecidableEq

/-- Provider-visible events issued by the handlers, in program order. -/
inductive Ev
  | touchClock
  | instGet
  | setMeta (body : MetaBody)
  | opPoll
  | instStart
  | instStop
  | getPod (pid : String)
  | createOrGet
  | resumePod (pid : String)
  | terminatePod (pid : String)
  | stopPod (pid : String)
  | uploadJson (name : String) (payload : List (String × String))
  | flagCheck
  | listBlobs
deriving DecidableEq

/-- Number of GCE `instances().start` calls in a trace. -/
def countStartCalls : List Ev → Nat
  | [] => 0
  | Ev.instStart :: t => countStartCalls t + 1
  | _ :: t => countStartCalls t

/-- Number of RunPod `resume_pod` calls in a trace. -/
def countResumeCalls : List Ev → Nat
  | [] => 0
  | Ev.resumePod _ :: t => countResumeCalls t + 1
  | _ :: t => countResumeCalls t

/-- Number of RunPod `terminate_pod` calls in a trace. -/
def countTerminateCalls : List Ev → Nat
  | [] => 0
  | Ev.terminatePod _ :: t => countTerminateCalls t + 1
  | _ :: t => countTerminateCalls t

/-- Function `wait_for_operation` of `instance_manager.py` (the identical inline
loop appears in `push_metadata` of `main.py`): poll the listed
`zoneOperations().get` responses until the first `DONE`; if it carries an
embedded error, raise `RuntimeError` with it; if the list is exhausted the
Python loop never ends. Returns the outcome and the poll events. -/
def waitForOperation : List OpResult → Outcome Bool × List Ev
  | [] => (.hang, [])
  | r :: rest =>
      if r.status = "DONE" then
        match r.error with
        | some e => (.err (.runtime e), [.opPoll])
        | none => (.ok true, [.opPoll])
      else
        let w := waitForOperation rest
        (w.1, .opPoll :: w.2)

/-- First response whose status is `DONE`, if any. -/
def firstDone : List OpResult → Option OpResult
  | [] => none
  | r :: rest => if r.status = "DONE" then some r else firstDone rest

/-- Result of a FastAPI handler: an `OperationResult` body
(`success`/`message`/`status`/`pod_id`), a raised `HTTPException`
(status code and detail), or divergence. -/
inductive HRes
  | ok (success : Bool) (message : String) (status : Option String) (podId : Option String)
  | httpExc (code : Nat) (detail : String)
  | hang
deriving DecidableEq

/-- The normalized status vocabulary of the specification. -/
def normalizedStatuses : List String :=
  ["RUNNING", "PROVISIONING", "STOPPING", "TERMINATED",
   "NOT_FOUND", "NOT_CONFIGURED", "UNKNOWN", "ERROR"]

namespace IM

/-! Module `instance_manager.py` — GCE instance lifecycle controller -/

/-- Environment configuration read by `instance_manager.py`
(`STARTUP_SCRIPT_URL` and `ALLOWED_IP` come from `os.getenv` and may be
absent; the auth values have defaults). -/
structure Config where
  startupScriptUrl : Option String
  allowedIp : Option String
  authUser : String
  authPass : String
deriving DecidableEq

/-- In-process mutable state of the module: the global `last_activity`
timestamp. -/
structure St where
  lastActivity : Nat
deriving DecidableEq

/-- The dictionary built by `get_instance_status` (the `last_activity`
echo field is glue and elided). -/
structure StatusDict where
  status : String
  externalIp : Option String
deriving DecidableEq

/-- First truthy `natIP` of one interface's access configs
(`if nat_ip: ...; break`; Python treats `None` and `""` as falsy). -/
def firstNatIPOfIface : List (Option String) → Option String
  | [] => none
  | none :: rest => firstNatIPOfIface rest
  | some ip :: rest => if ip = "" then firstNatIPOfIface rest else some ip

/-- First truthy `natIP` over all network interfaces (the double loop
with `break`). -/
def firstNatIP : List (List (Option String)) → Option String
  | [] => none
  | iface :: rest =>
      match firstNatIPOfIface iface with
      | some ip => some ip
      | none => firstNatIP rest

/-- Function `get_instance_status`: read the instance record; the raw provider
`status` field is passed through unchanged (absent ⇒ `"UNKNOWN"`); the
external IP is extracted only when the status is `"RUNNING"`; a provider
404 `HttpError` yields `NOT_FOUND` instead of raising; any other error is
re-raised. -/
def get_instance_status (g : Except PyErr InstRecord) : Outcome StatusDict :=
  match g with
  | .ok inst =>
      let status := inst.status.getD "UNKNOWN"
      let externalIp := if status = "RUNNING" then firstNatIP inst.natIPs else none
      .ok { status := status, externalIp := externalIp }
  | .error (.http st c) =>
      if st = 404 then .ok { status := "NOT_FOUND", externalIp := none }
      else .err (.http st c)
  | .error e => .err e

/-- Provider-call environment of one `start_instance` invocation: the
outcomes of the status read, the fingerprint read, the `setMetadata`
call, its operation polls, the `instances().start` call, and its
operation polls. -/
structure StartEnv where
  statusGet : Except PyErr InstRecord
  metaGet : Except PyErr InstRecord
  setMeta : Except PyErr String
  setMetaPolls : List OpResult
  startCall : Except PyErr String
  startPolls : List OpResult

/-- The normalized status string the status check at the top of
`start_instance` observes, if the check returns normally. -/
def obsStatus (env : StartEnv) : Option String :=
  match get_instance_status env.statusGet with
  | .ok sd => some sd.status
  | _ => none

/-- The metadata items `start_instance` assembles for the startup
script. -/
def metadata_items (cfg : Config) : List (String × Option String) :=
  [("startup-script-url", cfg.startupScriptUrl)]
    ++ (match cfg.allowedIp with
        | some ip => [("allowed_ip", some ip)]
        | none => [])
    ++ [("auth_user", some cfg.authUser), ("auth_pass", some cfg.authPass)]

/-- Function `set_instance_metadata`: read the current record for its
fingerprint, submit a full-replacement `setMetadata` body carrying that
fingerprint and exactly the given items, then wait for the operation;
every exception is re-raised (the `except` clause only logs). -/
def set_instance_metadata (g : Except PyErr InstRecord) (sm : Except PyErr String)
    (polls : List OpResult) (items : List (String × Option String)) :
    Outcome Bool × List Ev :=
  match g with
  | .error e => (.err e, [.instGet])
  | .ok inst =>
      let body : MetaBody := { fingerprint := inst.metadataFingerprint, items := items }
      match sm with
      | .error e => (.err e, [.instGet, .setMeta body])
      | .ok _ =>
          let w := waitForOperation polls
          (w.1, .instGet :: .setMeta body :: w.2)

/-- The `except` cascade at the bottom of `start_instance`: a 404
`HttpError` becomes HTTP 404; other `HttpError`s are pattern-matched for
`ZONE_RESOURCE_POOL_EXHAUSTED` and `QUOTA_EXCEEDED` (HTTP 503);
everything else (including `RuntimeError` from the operation wait)
becomes HTTP 500 with the error's message. -/
def wrapErr : PyErr → HRes
  | .http st c =>
      if st = 404 then .httpExc 404 "Instance not found"
      else if strContains c "ZONE_RESOURCE_POOL_EXHAUSTED" then
        .httpExc 503 "GPU resources are currently unavailable. Please try again in a few minutes."
      else if strContains c "QUOTA_EXCEEDED" then
        .httpExc 503 "GPU quota exceeded. Please check your GCP quotas or contact support."
      else .httpExc 500 c
  | e => .httpExc 500 (strOfErr e)

/-- Handler `start_instance` (`POST /start`): set `last_activity` to now, check
the observed status (no-op success on `RUNNING`, `PROVISIONING`,
`STAGING`), otherwise push the startup metadata, issue the provider
start call, wait for its operation, and report `PROVISIONING`; errors go
through `wrapErr`. Returns the handler result, the final module state,
and the provider event trace. -/
def start_instance (cfg : Config) (env : StartEnv) (now : Nat) (_st : St) :
    HRes × St × List Ev :=
  let st1 : St := { lastActivity := now }
  match get_instance_status env.statusGet with
  | .err e => (wrapErr e, st1, [.touchClock, .instGet])
  | .hang => (.hang, st1, [.touchClock, .instGet])
  | .ok sd =>
      if sd.status = "RUNNING" then
        (.ok true "Instance is already running" (some "RUNNING") none, st1,
         [.touchClock, .instGet])
      else if sd.status = "PROVISIONING" ∨ sd.status = "STAGING" then
        (.ok true "Instance is already starting" (some sd.status) none, st1,
         [.touchClock, .instGet])
      else
        let items := metadata_items cfg
        let m := set_instance_metadata env.metaGet env.setMeta env.setMetaPolls items
        match m.1 with
        | .err e => (wrapErr e, st1, .touchClock :: m.2)
        | .hang => (.hang, st1, .touchClock :: m.2)
        | .ok _ =>
            match env.startCall with
            | .error e => (wrapErr e, st1, .touchClock :: m.2 ++ [.instStart])
            | .ok _ =>
                let w := waitForOperation env.startPolls
                match w.1 with
                | .err e => (wrapErr e, st1, .touchClock :: m.2 ++ .instStart :: w.2)
                | .hang => (.hang, st1, .touchClock :: m.2 ++ .instStart :: w.2)
                | .ok _ =>
                    (.ok true "Instance started successfully" (some "PROVISIONING") none,
                     st1, .touchClock :: m.2 ++ .instStart :: w.2)

/-- Trace of two `start_instance` calls in immediate succession: the
provider environment is unchanged between the calls (no external
transition happens in between). -/
def startTwiceTrace (cfg : Config) (env : StartEnv) (st : St) (n1 n2 : Nat) : List Ev :=
  let r1 := start_instance cfg env n1 st
  let r2 := start_instance cfg env n2 r1.2.1
  r1.2.2 ++ r2.2.2

/-- Handler `keep_alive` (`POST /keep-alive`): set `last_activity` to now, then
issue a status read whose result is discarded and whose failure is
swallowed by the `except` clause; always returns the success body. -/
def keep_alive (_g : Except PyErr InstRecord) (now : Nat) (_st : St) :
    HRes × St × List Ev :=
  (.ok true "Activity timer reset" none none, { lastActivity := now },
   [.touchClock, .instGet])

end IM

namespace RP

/-! Module `runpod_manager.py` — RunPod pod lifecycle controller -/

/-- The `status_map` dictionary of `map_runpod_status`. -/
def runpodStatusMap : List (String × String) :=
  [("RUNNING", "RUNNING"),
   ("IDLE", "RUNNING"),
   ("STOPPED", "TERMINATED"),
   ("STOPPING", "STOPPING"),
   ("STARTING", "PROVISIONING"),
   ("PENDING", "PROVISIONING"),
   ("FAILED", "TERMINATED"),
   ("EXITED", "TERMINATED")]

/-- Python `d.get(key, default)` on an association list. -/
def lookupD : List (String × String) → String → String → String
  | [], _, d => d
  | (k, v) :: rest, key, d => if k = key then v else lookupD rest key d

/-- Function `map_runpod_status`: upper-case the raw status and look it up in the
table, defaulting to `"UNKNOWN"`. -/
def map_runpod_status (runpodStatus : String) : String :=
  lookupD runpodStatusMap (strUpper runpodStatus) "UNKNOWN"

/-- The RunPod pod record as consumed by the code: the raw
`desiredStatus` field (absent ⇒ `"UNKNOWN"`) and the optional direct
IP. -/
structure PodRecord where
  desiredStatus : Option String
  ip : Option String
deriving DecidableEq

/-- The dictionary built by `get_pod_status` (URL fields are glue and
elided). `podId` is present only in the normal-path dictionary. -/
structure PodSD where
  status : String
  podId : Option String
deriving DecidableEq

/-- Function `get_pod_status`: returns `NOT_CONFIGURED` when no pod id is set,
`NOT_FOUND` when `runpod.get_pod` returns nothing, otherwise the mapped
`desiredStatus`; every exception is swallowed into an `ERROR`
dictionary — this function never raises. Returns the dictionary and the
provider events. -/
def get_pod_status (pid : Option String) (g : Except PyErr (Option PodRecord)) :
    PodSD × List Ev :=
  match pid with
  | none => ({ status := "NOT_CONFIGURED", podId := none }, [])
  | some p =>
      match g with
      | .error _ => ({ status := "ERROR", podId := none }, [.getPod p])
      | .ok none => ({ status := "NOT_FOUND", podId := none }, [.getPod p])
      | .ok (some pod) =>
          ({ status := map_runpod_status (pod.desiredStatus.getD "UNKNOWN"),
             podId := some p }, [.getPod p])

/-- In-process mutable state of the module: the global `last_activity`
and the global `POD_ID`. -/
structure St where
  lastActivity : Nat
  podId : Option String
deriving DecidableEq

/-- Provider-call environment of one RunPod `start_instance`
invocation: the outcome of `create_or_get_pod` (consulted only when no
pod id is configured), of `runpod.get_pod`, and of `runpod.resume_pod`. -/
structure StartEnv where
  createOrGet : Except PyErr String
  getPod : Except PyErr (Option PodRecord)
  resume : Except PyErr Unit

/-- The `except` cascade of the RunPod `start_instance`: the lower-cased
message is pattern-matched for `insufficient`/`capacity` and `quota`
(HTTP 503); everything else becomes HTTP 500 with the message. -/
def wrapErr : PyErr → HRes
  | e =>
      let m := strOfErr e
      let ml := strLower m
      if strContains ml "insufficient" || strContains ml "capacity" then
        .httpExc 503 "GPU resources are currently unavailable. Please try again in a few minutes."
      else if strContains ml "quota" then
        .httpExc 503 "Account quota exceeded. Please check your Runpod account or upgrade your plan."
      else .httpExc 500 m

/-- The status string the status check of the RunPod `start_instance`
observes for a configured pod id. -/
def podObs (env : StartEnv) (pid : String) : String :=
  (get_pod_status (some pid) env.getPod).1.status

/-- Handler `start_instance` of the RunPod variant (`POST /start`): set `last_activity` to now,
resolve the pod id via `create_or_get_pod` when unset, check the
observed status (no-op success on `RUNNING`, `PROVISIONING`, `STAGING`),
otherwise `resume_pod` and report `PROVISIONING`; errors go through
`wrapErr`. -/
def start_instance (env : StartEnv) (now : Nat) (st : St) : HRes × St × List Ev :=
  match st.podId with
  | none =>
      (match env.createOrGet with
       | .error e =>
           (wrapErr e, { lastActivity := now, podId := none }, [.touchClock, .createOrGet])
       | .ok pid =>
           let st1 : St := { lastActivity := now, podId := some pid }
           let g := get_pod_status (some pid) env.getPod
           if g.1.status = "RUNNING" then
             (.ok true "Pod is already running" (some "RUNNING") (some pid), st1,
              .touchClock :: .createOrGet :: g.2)
           else if g.1.status = "PROVISIONING" ∨ g.1.status = "STAGING" then
             (.ok true "Pod is already starting" (some g.1.status) (some pid), st1,
              .touchClock :: .createOrGet :: g.2)
           else
             match env.resume with
             | .error e => (wrapErr e, st1, .touchClock :: .createOrGet :: g.2 ++ [.resumePod pid])
             | .ok _ =>
                 (.ok true "Pod started successfully" (some "PROVISIONING") (some pid), st1,
                  .touchClock :: .createOrGet :: g.2 ++ [.resumePod pid]))
  | some pid =>
      let st1 : St := { lastActivity := now, podId := some pid }
      let g := get_pod_status (some pid) env.getPod
      if g.1.status = "RUNNING" then
        (.ok true "Pod is already running" (some "RUNNING") (some pid), st1,
         .touchClock :: g.2)
      else if g.1.status = "PROVISIONING" ∨ g.1.status = "STAGING" then
        (.ok true "Pod is already starting" (some g.1.status) (some pid), st1,
         .touchClock :: g.2)
      else
        match env.resume with
        | .error e => (wrapErr e, st1, .touchClock :: g.2 ++ [.resumePod pid])
        | .ok _ =>
            (.ok true "Pod started successfully" (some "PROVISIONING") (some pid), st1,
             .touchClock :: g.2 ++ [.resumePod pid])

/-- Trace of two RunPod `start_instance` calls in immediate succession
with an unchanged provider environment. -/
def startTwiceTrace (env : StartEnv) (st : St) (n1 n2 : Nat) : List Ev :=
  let r1 := start_instance env n1 st
  let r2 := start_instance env n2 r1.2.1
  r1.2.2 ++ r2.2.2

/-- Handler `terminate_instance` (`POST /terminate`): success no-op when no pod
id is configured; otherwise `runpod.terminate_pod`, and only on success
clear the stored pod id (reporting the old id); failures become HTTP 500
and leave the pod id in place. -/
def terminate_instance (term : Except PyErr Unit) (st : St) : HRes × St × List Ev :=
  match st.podId with
  | none => (.ok true "No pod to terminate" (some "TERMINATED") none, st, [])
  | some p =>
      match term with
      | .error e => (.httpExc 500 (strOfErr e), st, [.terminatePod p])
      | .ok _ =>
          (.ok true "Pod terminated successfully" (some "TERMINATED") (some p),
           { st with podId := none }, [.terminatePod p])

/-- Trace of two `terminate_instance` calls in succession, each with its
own provider outcome. -/
def terminateTwiceTrace (t1 t2 : Except PyErr Unit) (st : St) : List Ev :=
  let r1 := terminate_instance t1 st
  let r2 := terminate_instance t2 r1.2.1
  r1.2.2 ++ r2.2.2

/-- Handler `keep_alive` of the RunPod variant: reset `last_activity` and
return the success body; no provider call at all. -/
def keep_alive (now : Nat) (st : St) : HRes × St × List Ev :=
  (.ok true "Activity timer reset" none none,
   { st with lastActivity := now }, [.touchClock])

end RP

namespace MAIN

/-! Module `main.py` — job dispatcher (`push_metadata`, `render`) -/

/-- Environment configuration read by `main.py`. -/
structure Config where
  jobBucket : String
  outBucket : String
  startupUrl : Option String

/-- Python dict assignment `d[k] = v` on an insertion-ordered
association list: replace in place if the key exists, else append. -/
def setKey : List (String × String) → String → String → List (String × String)
  | [], k, v => [(k, v)]
  | (k0, v0) :: rest, k, v =>
      if k0 = k then (k0, v) :: rest else (k0, v0) :: setKey rest k v

/-- A two-cell heap for the aliasing question of `render`: the caller's
workflow dict (`req.workflow`) and the local dict the handler builds
(absent before `req.workflow.copy()` runs). -/
structure WfHeap where
  caller : List (String × String)
  tmp : Option (List (String × String))
deriving DecidableEq

/-- A reference into the heap: the caller's dict or the handler's local
dict. -/
inductive WfRef
  | callerRef
  | tmpRef
deriving DecidableEq

/-- Read the dict a reference points to. -/
def heapGet (h : WfHeap) : WfRef → List (String × String)
  | .callerRef => h.caller
  | .tmpRef => h.tmp.getD []

/-- In-place assignment `r[k] = v` through a reference. -/
def heapSet (h : WfHeap) (r : WfRef) (k v : String) : WfHeap :=
  match r with
  | .callerRef => { h with caller := setKey h.caller k v }
  | .tmpRef => { h with tmp := h.tmp.map (fun d => setKey d k v) }

/-- Python `d.copy()`: allocate the local dict as a shallow copy of the
referenced one and return a reference to the fresh cell. -/
def dictCopy (h : WfHeap) (r : WfRef) : WfHeap × WfRef :=
  ({ h with tmp := some (heapGet h r) }, .tmpRef)

/-- The first lines of `render`: `workflow = req.workflow.copy()`, then
`workflow["client_id"] = job_id` and
`workflow["output_path"] = "/tmp/comfy-out"`, both applied through the
copy's reference. Returns the final heap and the annotated payload. -/
def renderPrep (jid : String) (w : List (String × String)) :
    WfHeap × List (String × String) :=
  let h0 : WfHeap := { caller := w, tmp := none }
  let c := dictCopy h0 .callerRef
  let h2 := heapSet c.1 c.2 "client_id" jid
  let h3 := heapSet h2 c.2 "output_path" "/tmp/comfy-out"
  (h3, heapGet h3 c.2)

/-- Function `push_metadata` of `main.py`: read the instance record, take its
`fingerprint`, submit a full-replacement `setMetadata` body carrying the
fingerprint and exactly the given items, then run the inline
operation-wait loop; nothing is caught, so every error propagates. -/
def push_metadata (g : Except PyErr InstRecord) (sm : Except PyErr String)
    (polls : List OpResult) (items : List (String × Option String)) :
    Outcome Unit × List Ev :=
  match g with
  | .error e => (.err e, [.instGet])
  | .ok inst =>
      let body : MetaBody := { fingerprint := inst.metadataFingerprint, items := items }
      match sm with
      | .error e => (.err e, [.instGet, .setMeta body])
      | .ok _ =>
          let w := waitForOperation polls
          (match w.1 with
           | .ok _ => .ok ()
           | .err e => .err e
           | .hang => .hang,
           .instGet :: .setMeta body :: w.2)

/-- Remove every occurrence of `gs://` from a character list
(left-to-right, non-overlapping, as Python `str.replace` does). -/
def stripGsL : List Char → List Char
  | 'g' :: 's' :: ':' :: '/' :: '/' :: rest => stripGsL rest
  | c :: rest => c :: stripGsL rest
  | [] => []

/-- Python `OUT_BUCKET.replace("gs://", "")`. -/
def stripGs (s : String) : String := ⟨stripGsL s.toList⟩

/-- Helper `signed_url` (glue: a tagged string standing for the V4 signed
URL). -/
def signed_url (bucket name : String) : String :=
  "signed:" ++ bucket ++ "/" ++ name

/-- Python `b.name.endswith((".png", ".jpg"))`. -/
def isImageName (b : String) : Bool :=
  strEndsWith b ".png" || strEndsWith b ".jpg"

/-- The existence-check events of the `DONE.flag` poll loop: `some n`
means the flag appears on the check after `n` misses; `none` means it
never appears and the loop runs forever (the trace records the loop
entering its first check). -/
def flagEvs : Option Nat → List Ev
  | none => [.flagCheck]
  | some n => List.replicate (n + 1) .flagCheck

/-- Result of the `render` handler: the response body, a propagated
exception, a raised `HTTPException`, or divergence in the flag poll
loop. -/
inductive ROut
  | ok (jobId : String) (files : List String)
  | raised (e : PyErr)
  | httpExc (code : Nat) (detail : String)
  | hang
deriving DecidableEq

/-- Provider environment of one `render` invocation: the generated job
id, the workflow upload outcome, the `push_metadata` sub-environment,
the `instances().start` outcome, when (if ever) the completion flag
appears, and the blob names listed under the job's output path. -/
structure RenderEnv where
  jobId : String
  uploadRes : Except PyErr Unit
  metaGet : Except PyErr InstRecord
  setMeta : Except PyErr String
  opPolls : List OpResult
  startCall : Except PyErr String
  flagAppears : Option Nat
  blobNames : List String

/-- Handler `render` (`POST /render`): copy and annotate the workflow, upload it
as `{job_id}.json`, push the four boot metadata items, start the
instance, poll for `{job_id}/DONE.flag`, list the output blobs, filter
to `.png`/`.jpg`, sign them, and fail with HTTP 500 `No images produced`
when none remain. Returns the result, the final workflow heap, and the
event trace. -/
def render (cfg : Config) (env : RenderEnv) (workflow : List (String × String))
    (modelUrl : String) : ROut × WfHeap × List Ev :=
  let jid := env.jobId
  let jobPref := jid ++ "/"
  let p := renderPrep jid workflow
  let jobBlob := jid ++ ".json"
  let upEv := Ev.uploadJson jobBlob p.2
  match env.uploadRes with
  | .error e => (.raised e, p.1, [upEv])
  | .ok _ =>
      let items : List (String × Option String) :=
        [("startup-script-url", cfg.startupUrl),
         ("job_workflow", some (cfg.jobBucket ++ "/" ++ jobBlob)),
         ("model_uri", some modelUrl),
         ("output_bucket", some (cfg.outBucket ++ "/" ++ jobPref))]
      let m := push_metadata env.metaGet env.setMeta env.opPolls items
      match m.1 with
      | .err e => (.raised e, p.1, upEv :: m.2)
      | .hang => (.hang, p.1, upEv :: m.2)
      | .ok _ =>
          match env.startCall with
          | .error e => (.raised e, p.1, upEv :: m.2 ++ [.instStart])
          | .ok _ =>
              match env.flagAppears with
              | none => (.hang, p.1, upEv :: m.2 ++ .instStart :: flagEvs none)
              | some n =>
                  let t := upEv :: m.2 ++ .instStart :: flagEvs (some n) ++ [.listBlobs]
                  let files :=
                    (env.blobNames.filter isImageName).map
                      (signed_url (stripGs cfg.outBucket))
                  if files = [] then (.httpExc 500 "No images produced", p.1, t)
                  else (.ok jid files, p.1, t)

end MAIN

/-! Helper lemmas -/

/-- The operation-wait loop only issues poll events. -/
theorem waitForOperation_trace_all_opPoll (polls : List OpResult) :
    ∀ e ∈ (waitForOperation polls).2, e = Ev.opPoll := by
  induction polls with
  | nil => intro e he; simp [waitForOperation] at he
  | cons r rest ih =>
      intro e he
      by_cases h : r.status = "DONE"
      · cases herr : r.error <;> simp [waitForOperation, h, herr] at he <;> exact he
      · simp [waitForOperation, h] at he
        rcases he with he | he
        · exact he
        · exact ih e he

/-- The outcome of the operation-wait loop is decided by the first
`DONE` response. -/
theorem waitForOperation_fst (polls : List OpResult) :
    (waitForOperation polls).1 =
      (match firstDone polls with
       | none => .hang
       | some r =>
           match r.error with
           | some e => .err (.runtime e)
           | none => .ok true) := by
  induction polls with
  | nil => rfl
  | cons r rest ih =>
      by_cases h : r.status = "DONE"
      · cases herr : r.error <;> simp [waitForOperation, firstDone, h, herr]
      · simp [waitForOperation, firstDone, h, ih]

/-- A successful wait issued at least one poll. -/
theorem waitForOperation_ok_mem (polls : List OpResult) (b : Bool)
    (h : (waitForOperation polls).1 = .ok b) :
    Ev.opPoll ∈ (waitForOperation polls).2 := by
  cases polls with
  | nil => simp [waitForOperation] at h
  | cons r rest =>
      by_cases hd : r.status = "DONE"
      · cases herr : r.error <;> simp [waitForOperation, hd, herr]
      · simp [waitForOperation, hd]

/-- If an event list splits at a `flagCheck`, any member of a
`flagCheck`-free leading chunk lands in the part before the split. -/
theorem mem_pre_of_split (A : List Ev) (x : Ev) :
    ∀ (B pre post : List Ev), A ++ B = pre ++ Ev.flagCheck :: post →
      Ev.flagCheck ∉ A → x ∈ A → x ∈ pre := by
  induction A with
  | nil => intro B pre post _ _ hx; simp at hx
  | cons a A' ih =>
      intro B pre post heq hnf hx
      cases pre with
      | nil =>
          simp at heq
          exact absurd (heq.1 ▸ List.mem_cons_self a A') hnf
      | cons p pre' =>
          simp at heq
          rcases List.mem_cons.mp hx with h1 | h1
          · subst h1; exact heq.1 ▸ List.mem_cons_self x pre'
          · exact List.mem_cons_of_mem p
              (ih B pre' post heq.2 (fun hm => hnf (List.mem_cons_of_mem a hm)) h1)

/-- A list without `flagCheck` admits no split at a `flagCheck`. -/
theorem no_flagCheck_no_split (t pre post : List Ev)
    (hnf : Ev.flagCheck ∉ t) (heq : t = pre ++ Ev.flagCheck :: post) : False := by
  apply hnf
  rw [heq]
  exact List.mem_append_right pre (List.mem_cons_self _ _)

/-- Python `d.get` on an association list returns the default or one of
the stored values. -/
theorem lookupD_mem (l : List (String × String)) (k d : String) :
    RP.lookupD l k d = d ∨ RP.lookupD l k d ∈ l.map Prod.snd := by
  induction l with
  | nil => left; rfl
  | cons kv rest ih =>
      obtain ⟨k0, v0⟩ := kv
      by_cases h : k0 = k
      · right; simp [RP.lookupD, h]
      · rcases ih with h2 | h2
        · left; simp [RP.lookupD, h, h2]
        · right; simp [RP.lookupD, h]
          right; simpa using h2

/-- Python `d.get` on an association list returns the default when the
key is absent. -/
theorem lookupD_not_mem (l : List (String × String)) (k d : String)
    (h : k ∉ l.map Prod.fst) : RP.lookupD l k d = d := by
  induction l with
  | nil => rfl
  | cons kv rest ih =>
      obtain ⟨k0, v0⟩ := kv
      simp only [List.map_cons, List.mem_cons] at h
      push_neg at h
      simp only [RP.lookupD]
      rw [if_neg (fun hk => h.1 hk.symm)]
      exact ih h.2

/-- Function `get_pod_status` on a configured pod id issues exactly the one
`get_pod` read. -/
theorem get_pod_status_trace (p : String) (g : Except PyErr (Option RP.PodRecord)) :
    (RP.get_pod_status (some p) g).2 = [Ev.getPod p] := by
  cases g with
  | error e => rfl
  | ok o => cases o <;> rfl

/-! Claims -/

/-- C6: `render` never mutates the caller-supplied workflow object in
place: the `client_id` and `output_path` annotations are applied only to
the defensive copy (`req.workflow.copy()`), so the caller's dict is
unchanged by the call on every path, while the persisted payload is the
annotated copy. -/
theorem C6_render_never_mutates_workflow (cfg : MAIN.Config) (env : MAIN.RenderEnv)
    (workflow : List (String × String)) (modelUrl : String) :
    ((MAIN.render cfg env workflow modelUrl).2.1).caller = workflow ∧
    ((MAIN.render cfg env workflow modelUrl).2.2).head? =
      some (Ev.uploadJson (env.jobId ++ ".json")
        (MAIN.setKey (MAIN.setKey workflow "client_id" env.jobId) "output_path"
          "/tmp/comfy-out")) := by
  obtain ⟨jid, up, mg, sm, polls, sc, fa, bn⟩ := env
  constructor <;>
    · simp only [MAIN.render]
      repeat' split
      all_goals rfl

/-- C9 (amended): `KeepAlive` resets the activity clock and always
returns the success body regardless of any internal error; it never
issues a provider call that changes instance state. The pod variant
issues no provider call at all, but the GCE variant does issue a
read-only instance status query (whose failure is swallowed). -/
theorem C9_keep_alive_amended (g : Except PyErr InstRecord) (now : Nat)
    (st : IM.St) (st2 : RP.St) :
    IM.keep_alive g now st =
      (.ok true "Activity timer reset" none none, ⟨now⟩, [Ev.touchClock, Ev.instGet]) ∧
    RP.keep_alive now st2 =
      (.ok true "Activity timer reset" none none, { st2 with lastActivity := now },
       [Ev.touchClock]) :=
  ⟨rfl, rfl⟩

/-- C9 counterexample: the GCE `keep_alive` issues a provider call that
reads instance state (`compute.instances().get` via
`get_instance_status`), contradicting the claim that `KeepAlive` never
issues any provider call that reads instance state in both variants. -/
theorem C9_counterexample :
    (IM.keep_alive (.ok ⟨some "RUNNING", [], "fp", []⟩) 5 ⟨0⟩).2.2 =
      [Ev.touchClock, Ev.instGet] ∧
    Ev.instGet ∈ (IM.keep_alive (.ok ⟨some "RUNNING", [], "fp", []⟩) 5 ⟨0⟩).2.2 := by
  decide

/-- C10: in both variants `start_instance` sets the process-wide
activity clock to the invocation time as its very first action (the
trace starts with the clock touch, before the status check and any
provider call), and every invocation — however it ends — leaves
`last_activity` equal to the invocation time. -/
theorem C10_start_updates_clock_first :
    (∀ (cfg : IM.Config) (env : IM.StartEnv) (now : Nat) (st : IM.St),
        ((IM.start_instance cfg env now st).2.1).lastActivity = now ∧
        ((IM.start_instance cfg env now st).2.2).head? = some Ev.touchClock) ∧
    (∀ (env : RP.StartEnv) (now : Nat) (st : RP.St),
        ((RP.start_instance env now st).2.1).lastActivity = now ∧
        ((RP.start_instance env now st).2.2).head? = some Ev.touchClock) := by
  constructor
  · intro cfg env now st
    constructor <;>
      · simp only [IM.start_instance]
        repeat' split
        all_goals rfl
  · intro env now st
    constructor <;>
      · simp only [RP.start_instance]
        repeat' split
        all_goals rfl

/-- C8: RunPod `terminate_instance` clears the stored pod id after a
successful provider terminate call; with no pod id configured it returns
success with status `TERMINATED` and issues no provider call; hence two
invocations in succession where the first succeeds issue exactly one
provider terminate call. -/
theorem C8_terminate_clears_id (st : RP.St) (p : String) (t1 t2 : Except PyErr Unit) :
    (st.podId = some p → t1 = .ok () →
      RP.terminate_instance t1 st =
        (.ok true "Pod terminated successfully" (some "TERMINATED") (some p),
         { st with podId := none }, [Ev.terminatePod p])) ∧
    (st.podId = none →
      RP.terminate_instance t1 st =
        (.ok true "No pod to terminate" (some "TERMINATED") none, st, [])) ∧
    (st.podId = some p → t1 = .ok () →
      countTerminateCalls (RP.terminateTwiceTrace t1 t2 st) = 1) := by
  obtain ⟨la, pid⟩ := st
  refine ⟨fun hp ht => ?_, fun hp => ?_, fun hp ht => ?_⟩ <;>
    (dsimp at hp; subst hp) <;> first
    | (subst ht; rfl)
    | rfl

/-- C8 witness: a successful terminate on a configured pod, then a
second call, at concrete inputs. -/
theorem C8_witness :
    RP.terminate_instance (.ok ()) ⟨3, some "pod1"⟩ =
      (.ok true "Pod terminated successfully" (some "TERMINATED") (some "pod1"),
       ⟨3, none⟩, [Ev.terminatePod "pod1"]) ∧
    countTerminateCalls (RP.terminateTwiceTrace (.ok ()) (.ok ()) ⟨3, some "pod1"⟩) = 1 :=
  ⟨(C8_terminate_clears_id ⟨3, some "pod1"⟩ "pod1" (.ok ()) (.ok ())).1 rfl rfl,
   (C8_terminate_clears_id ⟨3, some "pod1"⟩ "pod1" (.ok ()) (.ok ())).2.2 rfl rfl⟩

/-- C7: when the completion marker appears but the listing of the job's
output path yields no name ending in `.png` or `.jpg`, `render` raises
HTTP 500 with exactly `No images produced` instead of returning an empty
file list. -/
theorem C7_empty_result_500 (cfg : MAIN.Config) (env : MAIN.RenderEnv)
    (workflow : List (String × String)) (modelUrl : String) (rec : InstRecord)
    (op op2 : String) (r : OpResult) (n : Nat)
    (hup : env.uploadRes = .ok ()) (hmg : env.metaGet = .ok rec)
    (hsm : env.setMeta = .ok op) (hfd : firstDone env.opPolls = some r)
    (hre : r.error = none) (hsc : env.startCall = .ok op2)
    (hfa : env.flagAppears = some n)
    (hempty : env.blobNames.filter MAIN.isImageName = []) :
    (MAIN.render cfg env workflow modelUrl).1 = .httpExc 500 "No images produced" := by
  obtain ⟨jid, up, mg, sm, polls, sc, fa, bn⟩ := env
  dsimp at hup hmg hsm hfd hre hsc hfa hempty
  subst hup hmg hsm hsc hfa
  simp [MAIN.render, MAIN.push_metadata, waitForOperation_fst, hfd, hre, hempty]

/-- C7 witness: a run whose listing holds only `a.txt` fails with the
distinguished empty-result error. -/
theorem C7_witness :
    (MAIN.render ⟨"gs://j", "gs://o", some "u"⟩
        ⟨"J", .ok (), .ok ⟨none, [], "fp", []⟩, .ok "op", [⟨"DONE", none⟩], .ok "op2",
         some 0, ["a.txt"]⟩ [("g", "1")] "m").1 = .httpExc 500 "No images produced" :=
  C7_empty_result_500 _ _ _ _ ⟨none, [], "fp", []⟩ "op" "op2" ⟨"DONE", none⟩ 0
    rfl rfl rfl (by decide) rfl rfl rfl (by decide)

/-- C2 (amended): the pod variant's status mapping is total — every raw
status maps into the normalized enum via an upper-cased table lookup and
unrecognized raw values map to `UNKNOWN`, never raising; the GCE variant
does not normalize: its status query passes the raw provider status
string through verbatim (substituting `UNKNOWN` only when the field is
absent) and maps a provider 404 to `NOT_FOUND`. -/
theorem C2_status_mapping_amended :
    (∀ s : String, RP.map_runpod_status s ∈ normalizedStatuses) ∧
    (∀ s : String, strUpper s ∉ RP.runpodStatusMap.map Prod.fst →
        RP.map_runpod_status s = "UNKNOWN") ∧
    (∀ rec : InstRecord,
        IM.get_instance_status (.ok rec) =
          .ok ⟨rec.status.getD "UNKNOWN",
               if rec.status.getD "UNKNOWN" = "RUNNING" then IM.firstNatIP rec.natIPs
               else none⟩) ∧
    (∀ c : String, IM.get_instance_status (.error (.http 404 c)) =
        .ok ⟨"NOT_FOUND", none⟩) := by
  refine ⟨?_, ?_, ?_, ?_⟩
  · intro s
    unfold RP.map_runpod_status
    rcases lookupD_mem RP.runpodStatusMap (strUpper s) "UNKNOWN" with h | h
    · rw [h]; decide
    · exact (by decide :
        ∀ x ∈ RP.runpodStatusMap.map Prod.snd, x ∈ normalizedStatuses) _ h
  · intro s h
    unfold RP.map_runpod_status
    exact lookupD_not_mem _ _ _ h
  · intro rec; rfl
  · intro c; rfl

/-- C2 witness: an unrecognized raw pod status maps to `UNKNOWN`. -/
theorem C2_witness : RP.map_runpod_status "zzz" = "UNKNOWN" :=
  C2_status_mapping_amended.2.1 "zzz" (by decide)

/-- C2 counterexample: the GCE status query does not normalize — the raw
provider status `STAGING` (a real GCE state the spec folds into
`PROVISIONING`) is returned verbatim and lies outside the normalized
enum, contradicting totality of the mapping for the GCE variant. -/
theorem C2_counterexample :
    IM.get_instance_status (.ok ⟨some "STAGING", [], "fp", []⟩) =
      .ok ⟨"STAGING", none⟩ ∧ "STAGING" ∉ normalizedStatuses := by
  decide

/-- C1 (amended): `start_instance` is idempotent against the observed
status in both variants — observing `RUNNING` returns success without
pushing metadata and without a provider start call, and observing
`PROVISIONING` (or `STAGING`) likewise; hence two calls in immediate
succession whose first observes `RUNNING` or `PROVISIONING` issue zero
provider start calls in total (in particular at most one). -/
theorem C1_start_idempotent_amended :
    (∀ (cfg : IM.Config) (env : IM.StartEnv) (now : Nat) (st : IM.St),
        IM.obsStatus env = some "RUNNING" →
        IM.start_instance cfg env now st =
          (.ok true "Instance is already running" (some "RUNNING") none, ⟨now⟩,
           [Ev.touchClock, Ev.instGet])) ∧
    (∀ (cfg : IM.Config) (env : IM.StartEnv) (now : Nat) (st : IM.St) (s : String),
        IM.obsStatus env = some s → s = "PROVISIONING" ∨ s = "STAGING" →
        IM.start_instance cfg env now st =
          (.ok true "Instance is already starting" (some s) none, ⟨now⟩,
           [Ev.touchClock, Ev.instGet])) ∧
    (∀ (cfg : IM.Config) (env : IM.StartEnv) (st : IM.St) (n1 n2 : Nat) (s : String),
        IM.obsStatus env = some s → s = "RUNNING" ∨ s = "PROVISIONING" →
        countStartCalls (IM.startTwiceTrace cfg env st n1 n2) = 0) ∧
    (∀ (env : RP.StartEnv) (now : Nat) (st : RP.St) (pid : String),
        st.podId = some pid → RP.podObs env pid = "RUNNING" →
        RP.start_instance env now st =
          (.ok true "Pod is already running" (some "RUNNING") (some pid),
           ⟨now, some pid⟩, [Ev.touchClock, Ev.getPod pid])) ∧
    (∀ (env : RP.StartEnv) (now : Nat) (st : RP.St) (pid : String),
        st.podId = some pid → RP.podObs env pid = "PROVISIONING" →
        RP.start_instance env now st =
          (.ok true "Pod is already starting" (some "PROVISIONING") (some pid),
           ⟨now, some pid⟩, [Ev.touchClock, Ev.getPod pid])) ∧
    (∀ (env : RP.StartEnv) (st : RP.St) (n1 n2 : Nat) (pid : String),
        st.podId = some pid →
        RP.podObs env pid = "RUNNING" ∨ RP.podObs env pid = "PROVISIONING" →
        countResumeCalls (RP.startTwiceTrace env st n1 n2) = 0) := by
  have grun : ∀ (cfg : IM.Config) (env : IM.StartEnv) (now : Nat) (st : IM.St),
      IM.obsStatus env = some "RUNNING" →
      IM.start_instance cfg env now st =
        (.ok true "Instance is already running" (some "RUNNING") none, ⟨now⟩,
         [Ev.touchClock, Ev.instGet]) := by
    intro cfg env now st h
    unfold IM.obsStatus at h
    cases hg : IM.get_instance_status env.statusGet with
    | ok sd =>
        rw [hg] at h
        simp only [Option.some.injEq] at h
        simp [IM.start_instance, hg, h]
    | err e => rw [hg] at h; simp at h
    | hang => rw [hg] at h; simp at h
  have gprov : ∀ (cfg : IM.Config) (env : IM.StartEnv) (now : Nat) (st : IM.St)
      (s : String), IM.obsStatus env = some s → s = "PROVISIONING" ∨ s = "STAGING" →
      IM.start_instance cfg env now st =
        (.ok true "Instance is already starting" (some s) none, ⟨now⟩,
         [Ev.touchClock, Ev.instGet]) := by
    intro cfg env now st s h hs
    unfold IM.obsStatus at h
    cases hg : IM.get_instance_status env.statusGet with
    | ok sd =>
        rw [hg] at h
        simp only [Option.some.injEq] at h
        rcases hs with rfl | rfl <;> simp [IM.start_instance, hg, h]
    | err e => rw [hg] at h; simp at h
    | hang => rw [hg] at h; simp at h
  have prun : ∀ (env : RP.StartEnv) (now : Nat) (st : RP.St) (pid : String),
      st.podId = some pid → RP.podObs env pid = "RUNNING" →
      RP.start_instance env now st =
        (.ok true "Pod is already running" (some "RUNNING") (some pid),
         ⟨now, some pid⟩, [Ev.touchClock, Ev.getPod pid]) := by
    intro env now st pid hp h
    obtain ⟨la, pid0⟩ := st
    dsimp at hp
    subst hp
    unfold RP.podObs at h
    simp [RP.start_instance, h, get_pod_status_trace]
  have pprov : ∀ (env : RP.StartEnv) (now : Nat) (st : RP.St) (pid : String),
      st.podId = some pid → RP.podObs env pid = "PROVISIONING" →
      RP.start_instance env now st =
        (.ok true "Pod is already starting" (some "PROVISIONING") (some pid),
         ⟨now, some pid⟩, [Ev.touchClock, Ev.getPod pid]) := by
    intro env now st pid hp h
    obtain ⟨la, pid0⟩ := st
    dsimp at hp
    subst hp
    unfold RP.podObs at h
    simp [RP.start_instance, h, get_pod_status_trace]
  refine ⟨grun, gprov, ?_, prun, pprov, ?_⟩
  · intro cfg env st n1 n2 s h hs
    simp only [IM.startTwiceTrace]
    rcases hs with rfl | rfl
    · rw [grun cfg env n1 st h]
      dsimp only
      rw [grun cfg env n2 ⟨n1⟩ h]
      rfl
    · rw [gprov cfg env n1 st _ h (Or.inl rfl)]
      dsimp only
      rw [gprov cfg env n2 ⟨n1⟩ _ h (Or.inl rfl)]
      rfl
  · intro env st n1 n2 pid hp hs
    simp only [RP.startTwiceTrace]
    rcases hs with h | h
    · rw [prun env n1 st pid hp h]
      dsimp only
      rw [prun env n2 ⟨n1, some pid⟩ pid rfl h]
      rfl
    · rw [pprov env n1 st pid hp h]
      dsimp only
      rw [pprov env n2 ⟨n1, some pid⟩ pid rfl h]
      rfl

/-- C1 witness: a `start_instance` call that observes `RUNNING` succeeds
without any metadata push or provider start call, at concrete inputs. -/
theorem C1_witness :
    IM.start_instance ⟨some "u", none, "au", "ap"⟩
        ⟨.ok ⟨some "RUNNING", [], "fp", []⟩, .ok ⟨none, [], "fp", []⟩, .ok "o", [],
         .ok "o", []⟩ 7 ⟨0⟩ =
      (.ok true "Instance is already running" (some "RUNNING") none, ⟨7⟩,
       [Ev.touchClock, Ev.instGet]) :=
  C1_start_idempotent_amended.1 _ _ 7 ⟨0⟩ (by decide)

/-- C1 counterexample: two immediate `start_instance` calls whose first
observes `RUNNING` issue zero provider start calls in total, not exactly
one as claimed. -/
theorem C1_counterexample :
    IM.obsStatus ⟨.ok ⟨some "RUNNING", [], "fp", []⟩, .ok ⟨none, [], "fp", []⟩, .ok "o",
        [], .ok "o", []⟩ = some "RUNNING" ∧
    countStartCalls (IM.startTwiceTrace ⟨some "u", none, "au", "ap"⟩
        ⟨.ok ⟨some "RUNNING", [], "fp", []⟩, .ok ⟨none, [], "fp", []⟩, .ok "o", [],
         .ok "o", []⟩ ⟨0⟩ 1 2) = 0 ∧
    countStartCalls (IM.startTwiceTrace ⟨some "u", none, "au", "ap"⟩
        ⟨.ok ⟨some "RUNNING", [], "fp", []⟩, .ok ⟨none, [], "fp", []⟩, .ok "o", [],
         .ok "o", []⟩ ⟨0⟩ 1 2) ≠ 1 := by
  decide

/-- C5 (amended): capacity and quota rejections of `Start` are
translated to HTTP 503 when they surface where the handler
pattern-matches them — for GCE, a provider `HttpError` (response status
≠ 404) whose content mentions `ZONE_RESOURCE_POOL_EXHAUSTED` or
`QUOTA_EXCEEDED`; for the pod variant, any start failure whose message
contains `insufficient`, `capacity`, or `quota` — while a capacity error
embedded in the GCE start operation's result surfaces as `RuntimeError`
and yields a generic HTTP 500. -/
theorem C5_capacity_errors_amended :
    (∀ (cfg : IM.Config) (env : IM.StartEnv) (now : Nat) (st : IM.St) (s : String)
        (rec : InstRecord) (op : String) (r : OpResult) (code : Nat) (c : String),
        IM.obsStatus env = some s → s ≠ "RUNNING" → s ≠ "PROVISIONING" → s ≠ "STAGING" →
        env.metaGet = .ok rec → env.setMeta = .ok op →
        firstDone env.setMetaPolls = some r → r.error = none →
        env.startCall = .error (.http code c) → code ≠ 404 →
        strContains c "ZONE_RESOURCE_POOL_EXHAUSTED" = true →
        (IM.start_instance cfg env now st).1 =
          .httpExc 503
            "GPU resources are currently unavailable. Please try again in a few minutes.") ∧
    (∀ (cfg : IM.Config) (env : IM.StartEnv) (now : Nat) (st : IM.St) (s : String)
        (rec : InstRecord) (op : String) (r : OpResult) (code : Nat) (c : String),
        IM.obsStatus env = some s → s ≠ "RUNNING" → s ≠ "PROVISIONING" → s ≠ "STAGING" →
        env.metaGet = .ok rec → env.setMeta = .ok op →
        firstDone env.setMetaPolls = some r → r.error = none →
        env.startCall = .error (.http code c) → code ≠ 404 →
        strContains c "ZONE_RESOURCE_POOL_EXHAUSTED" = false →
        strContains c "QUOTA_EXCEEDED" = true →
        (IM.start_instance cfg env now st).1 =
          .httpExc 503 "GPU quota exceeded. Please check your GCP quotas or contact support.") ∧
    (∀ (cfg : IM.Config) (env : IM.StartEnv) (now : Nat) (st : IM.St) (s : String)
        (rec : InstRecord) (op op2 : String) (r r2 : OpResult) (msg : String),
        IM.obsStatus env = some s → s ≠ "RUNNING" → s ≠ "PROVISIONING" → s ≠ "STAGING" →
        env.metaGet = .ok rec → env.setMeta = .ok op →
        firstDone env.setMetaPolls = some r → r.error = none →
        env.startCall = .ok op2 →
        firstDone env.startPolls = some r2 → r2.error = some msg →
        (IM.start_instance cfg env now st).1 = .httpExc 500 msg) ∧
    (∀ (env : RP.StartEnv) (now : Nat) (st : RP.St) (pid : String) (e : PyErr),
        st.podId = some pid →
        RP.podObs env pid ≠ "RUNNING" → RP.podObs env pid ≠ "PROVISIONING" →
        RP.podObs env pid ≠ "STAGING" →
        env.resume = .error e →
        (strContains (strLower (strOfErr e)) "insufficient" = true ∨
         strContains (strLower (strOfErr e)) "capacity" = true) →
        (RP.start_instance env now st).1 =
          .httpExc 503
            "GPU resources are currently unavailable. Please try again in a few minutes.") ∧
    (∀ (env : RP.StartEnv) (now : Nat) (st : RP.St) (pid : String) (e : PyErr),
        st.podId = some pid →
        RP.podObs env pid ≠ "RUNNING" → RP.podObs env pid ≠ "PROVISIONING" →
        RP.podObs env pid ≠ "STAGING" →
        env.resume = .error e →
        strContains (strLower (strOfErr e)) "insufficient" = false →
        strContains (strLower (strOfErr e)) "capacity" = false →
        strContains (strLower (strOfErr e)) "quota" = true →
        (RP.start_instance env now st).1 =
          .httpExc 503
            "Account quota exceeded. Please check your Runpod account or upgrade your plan.") := by
  refine ⟨?_, ?_, ?_, ?_, ?_⟩
  · intro cfg env now st s rec op r code c hobs h1 h2 h3 hmg hsm hfd hre hsc hcode hzone
    unfold IM.obsStatus at hobs
    cases hg : IM.get_instance_status env.statusGet with
    | ok sd =>
        rw [hg] at hobs
        simp only [Option.some.injEq] at hobs
        subst hobs
        simp [IM.start_instance, hg, h1, h2, h3, IM.set_instance_metadata, hmg, hsm,
              waitForOperation_fst, hfd, hre, hsc, IM.wrapErr, hcode, hzone]
    | err e => rw [hg] at hobs; simp at hobs
    | hang => rw [hg] at hobs; simp at hobs
  · intro cfg env now st s rec op r code c hobs h1 h2 h3 hmg hsm hfd hre hsc hcode hzone hquota
    unfold IM.obsStatus at hobs
    cases hg : IM.get_instance_status env.statusGet with
    | ok sd =>
        rw [hg] at hobs
        simp only [Option.some.injEq] at hobs
        subst hobs
        simp [IM.start_instance, hg, h1, h2, h3, IM.set_instance_metadata, hmg, hsm,
              waitForOperation_fst, hfd, hre, hsc, IM.wrapErr, hcode, hzone, hquota]
    | err e => rw [hg] at hobs; simp at hobs
    | hang => rw [hg] at hobs; simp at hobs
  · intro cfg env now st s rec op op2 r r2 msg hobs h1 h2 h3 hmg hsm hfd hre hsc hfd2 hre2
    unfold IM.obsStatus at hobs
    cases hg : IM.get_instance_status env.statusGet with
    | ok sd =>
        rw [hg] at hobs
        simp only [Option.some.injEq] at hobs
        subst hobs
        simp [IM.start_instance, hg, h1, h2, h3, IM.set_instance_metadata, hmg, hsm,
              waitForOperation_fst, hfd, hre, hsc, hfd2, hre2, IM.wrapErr, strOfErr]
    | err e => rw [hg] at hobs; simp at hobs
    | hang => rw [hg] at hobs; simp at hobs
  · intro env now st pid e hp h1 h2 h3 hres hpat
    obtain ⟨la, pid0⟩ := st
    dsimp at hp
    subst hp
    unfold RP.podObs at h1 h2 h3
    rcases hpat with hpat | hpat <;>
      simp [RP.start_instance, h1, h2, h3, hres, RP.wrapErr, hpat]
  · intro env now st pid e hp h1 h2 h3 hres hi hc hq
    obtain ⟨la, pid0⟩ := st
    dsimp at hp
    subst hp
    unfold RP.podObs at h1 h2 h3
    simp [RP.start_instance, h1, h2, h3, hres, RP.wrapErr, hi, hc, hq]

/-- C5 witness: a GCE start rejected by an HTTP-level capacity error is
reported as 503 with the distinguished message, at concrete inputs. -/
theorem C5_witness :
    (IM.start_instance ⟨some "u", none, "au", "ap"⟩
        ⟨.ok ⟨some "TERMINATED", [], "fp", []⟩, .ok ⟨none, [], "fp", []⟩, .ok "o",
         [⟨"DONE", none⟩],
         .error (.http 403 "op failed: ZONE_RESOURCE_POOL_EXHAUSTED in zone"), []⟩
        7 ⟨0⟩).1 =
      .httpExc 503
        "GPU resources are currently unavailable. Please try again in a few minutes." :=
  C5_capacity_errors_amended.1 _ _ 7 ⟨0⟩ "TERMINATED" ⟨none, [], "fp", []⟩ "o"
    ⟨"DONE", none⟩ 403 "op failed: ZONE_RESOURCE_POOL_EXHAUSTED in zone"
    (by decide) (by decide) (by decide) (by decide) rfl rfl (by decide) rfl rfl
    (by decide) (by decide)

/-- C5 counterexample: a GCE start whose capacity exhaustion surfaces in
the start operation's embedded error (the way GCE reports
`ZONE_RESOURCE_POOL_EXHAUSTED`) is raised as `RuntimeError`, bypasses the
pattern match, and yields HTTP 500 — not the claimed 503. -/
theorem C5_counterexample :
    (IM.start_instance ⟨some "u", none, "au", "ap"⟩
        ⟨.ok ⟨some "TERMINATED", [], "fp", []⟩, .ok ⟨none, [], "fp", []⟩, .ok "o",
         [⟨"DONE", none⟩], .ok "o",
         [⟨"DONE", some "ZONE_RESOURCE_POOL_EXHAUSTED"⟩]⟩ 7 ⟨0⟩).1 =
      .httpExc 500 "ZONE_RESOURCE_POOL_EXHAUSTED" ∧
    strContains "ZONE_RESOURCE_POOL_EXHAUSTED" "ZONE_RESOURCE_POOL_EXHAUSTED" = true := by
  decide

/-- C3: both `push_metadata` (`main.py`) and `set_instance_metadata`
(`instance_manager.py`) follow the four-step optimistic-concurrency
algorithm: (1) the instance read comes first on every invocation;
(2) the write carries the fingerprint of the record just read and
exactly the caller's items — a full replacement, independent of the
record's existing metadata — (3) followed only by operation polls;
(4) an embedded error of the completed operation is raised as
`RuntimeError`, and a failing write (e.g. a stale-fingerprint conflict)
propagates to the caller unswallowed. -/
theorem C3_push_metadata_algorithm :
    (∀ (g : Except PyErr InstRecord) (sm : Except PyErr String) (polls : List OpResult)
        (items : List (String × Option String)),
        ((MAIN.push_metadata g sm polls items).2).head? = some Ev.instGet) ∧
    (∀ (rec : InstRecord) (op : String) (polls : List OpResult)
        (items : List (String × Option String)),
        (MAIN.push_metadata (.ok rec) (.ok op) polls items).2 =
          Ev.instGet :: Ev.setMeta ⟨rec.metadataFingerprint, items⟩ ::
            (waitForOperation polls).2) ∧
    (∀ (rec : InstRecord) (op : String) (polls : List OpResult)
        (items : List (String × Option String)) (r : OpResult) (msg : String),
        firstDone polls = some r → r.error = some msg →
        (MAIN.push_metadata (.ok rec) (.ok op) polls items).1 = .err (.runtime msg)) ∧
    (∀ (rec : InstRecord) (op : String) (polls : List OpResult)
        (items : List (String × Option String)) (r : OpResult),
        firstDone polls = some r → r.error = none →
        (MAIN.push_metadata (.ok rec) (.ok op) polls items).1 = .ok ()) ∧
    (∀ (rec : InstRecord) (e : PyErr) (polls : List OpResult)
        (items : List (String × Option String)),
        MAIN.push_metadata (.ok rec) (.error e) polls items =
          (.err e, [Ev.instGet, Ev.setMeta ⟨rec.metadataFingerprint, items⟩])) ∧
    (∀ (g : Except PyErr InstRecord) (sm : Except PyErr String) (polls : List OpResult)
        (items : List (String × Option String)),
        ((IM.set_instance_metadata g sm polls items).2).head? = some Ev.instGet) ∧
    (∀ (rec : InstRecord) (op : String) (polls : List OpResult)
        (items : List (String × Option String)),
        (IM.set_instance_metadata (.ok rec) (.ok op) polls items).2 =
          Ev.instGet :: Ev.setMeta ⟨rec.metadataFingerprint, items⟩ ::
            (waitForOperation polls).2) ∧
    (∀ (rec : InstRecord) (op : String) (polls : List OpResult)
        (items : List (String × Option String)) (r : OpResult) (msg : String),
        firstDone polls = some r → r.error = some msg →
        (IM.set_instance_metadata (.ok rec) (.ok op) polls items).1 =
          .err (.runtime msg)) ∧
    (∀ (rec : InstRecord) (e : PyErr) (polls : List OpResult)
        (items : List (String × Option String)),
        IM.set_instance_metadata (.ok rec) (.error e) polls items =
          (.err e, [Ev.instGet, Ev.setMeta ⟨rec.metadataFingerprint, items⟩])) := by
  refine ⟨?_, ?_, ?_, ?_, ?_, ?_, ?_, ?_, ?_⟩
  · intro g sm polls items
    cases g with
    | error e => rfl
    | ok rec =>
        cases sm with
        | error e => rfl
        | ok op => rfl
  · intro rec op polls items; rfl
  · intro rec op polls items r msg hfd hre
    simp [MAIN.push_metadata, waitForOperation_fst, hfd, hre]
  · intro rec op polls items r hfd hre
    simp [MAIN.push_metadata, waitForOperation_fst, hfd, hre]
  · intro rec e polls items; rfl
  · intro g sm polls items
    cases g with
    | error e => rfl
    | ok rec =>
        cases sm with
        | error e => rfl
        | ok op => rfl
  · intro rec op polls items; rfl
  · intro rec op polls items r msg hfd hre
    simp [IM.set_instance_metadata, waitForOperation_fst, hfd, hre]
  · intro rec e polls items; rfl

/-- C3 witness: an operation completing `DONE` with an embedded error is
raised as that error, at concrete inputs. -/
theorem C3_witness :
    (MAIN.push_metadata (.ok ⟨none, [], "fp1", [("old", some "v")]⟩) (.ok "op")
        [⟨"RUNNING", none⟩, ⟨"DONE", some "opErr"⟩] [("k", some "v")]).1 =
      .err (.runtime "opErr") :=
  C3_push_metadata_algorithm.2.2.1 ⟨none, [], "fp1", [("old", some "v")]⟩ "op"
    [⟨"RUNNING", none⟩, ⟨"DONE", some "opErr"⟩] [("k", some "v")]
    ⟨"DONE", some "opErr"⟩ "opErr" (by decide) rfl

/-- Structure of a `render` trace: either it contains no completion-flag
existence check at all (a path that failed or hung before polling), or
it splits into a check-free part holding the workflow upload, the
metadata write with at least one operation poll, and the provider start
call, followed by the polling part. -/
theorem render_trace_split (cfg : MAIN.Config) (env : MAIN.RenderEnv)
    (w : List (String × String)) (m : String) :
    Ev.flagCheck ∉ (MAIN.render cfg env w m).2.2 ∨
    ∃ A B, (MAIN.render cfg env w m).2.2 = A ++ B ∧ Ev.flagCheck ∉ A ∧
      (∃ nm p, Ev.uploadJson nm p ∈ A) ∧ (∃ b, Ev.setMeta b ∈ A) ∧
      Ev.opPoll ∈ A ∧ Ev.instStart ∈ A := by
  obtain ⟨jid, up, mg, sm, polls, sc, fa, bn⟩ := env
  cases up with
  | error e => left; simp [MAIN.render]
  | ok u =>
      cases mg with
      | error e => left; simp [MAIN.render, MAIN.push_metadata]
      | ok rec =>
          cases sm with
          | error e => left; simp [MAIN.render, MAIN.push_metadata]
          | ok op =>
              cases hw : (waitForOperation polls).1 with
              | err e =>
                  left
                  simp [MAIN.render, MAIN.push_metadata, hw]
                  intro hmem
                  exact absurd (waitForOperation_trace_all_opPoll polls _ hmem) (by decide)
              | hang =>
                  left
                  simp [MAIN.render, MAIN.push_metadata, hw]
                  intro hmem
                  exact absurd (waitForOperation_trace_all_opPoll polls _ hmem) (by decide)
              | ok b =>
                  have hop := waitForOperation_ok_mem polls b hw
                  cases sc with
                  | error e =>
                      left
                      simp [MAIN.render, MAIN.push_metadata, hw]
                      intro hmem
                      exact absurd (waitForOperation_trace_all_opPoll polls _ hmem) (by decide)
                  | ok op2 =>
                      right
                      refine ⟨Ev.uploadJson (jid ++ ".json") (MAIN.renderPrep jid w).2 ::
                          (Ev.instGet ::
                            Ev.setMeta ⟨rec.metadataFingerprint,
                              [("startup-script-url", cfg.startupUrl),
                               ("job_workflow", some (cfg.jobBucket ++ "/" ++ (jid ++ ".json"))),
                               ("model_uri", some m),
                               ("output_bucket", some (cfg.outBucket ++ "/" ++ (jid ++ "/")))]⟩ ::
                            (waitForOperation polls).2) ++ [Ev.instStart],
                        (match fa with
                         | none => MAIN.flagEvs none
                         | some n => MAIN.flagEvs (some n) ++ [Ev.listBlobs]),
                        ?_, ?_, ?_, ?_, ?_, ?_⟩
                      · cases fa with
                        | none =>
                            simp [MAIN.render, MAIN.push_metadata, hw, MAIN.flagEvs]
                        | some n =>
                            simp only [MAIN.render, MAIN.push_metadata, hw]
                            split <;> simp
                      · intro hmem
                        simp at hmem
                        exact absurd (waitForOperation_trace_all_opPoll polls _ hmem) (by decide)
                      · exact ⟨jid ++ ".json", (MAIN.renderPrep jid w).2, by simp⟩
                      · exact ⟨⟨rec.metadataFingerprint,
                          [("startup-script-url", cfg.startupUrl),
                           ("job_workflow", some (cfg.jobBucket ++ "/" ++ (jid ++ ".json"))),
                           ("model_uri", some m),
                           ("output_bucket", some (cfg.outBucket ++ "/" ++ (jid ++ "/")))]⟩,
                          by simp⟩
                      · simp [hop]
                      · simp

/-- C4: in every execution of `render`, any existence check of the
completion marker is preceded in the trace by the job-description
upload, the metadata write with at least one completed operation poll,
and the provider start call — the dispatcher never polls for completion
before the hand-off has been issued. -/
theorem C4_handoff_order (cfg : MAIN.Config) (env : MAIN.RenderEnv)
    (workflow : List (String × String)) (modelUrl : String) (pre post : List Ev)
    (hsplit : (MAIN.render cfg env workflow modelUrl).2.2 =
      pre ++ Ev.flagCheck :: post) :
    (∃ nm p, Ev.uploadJson nm p ∈ pre) ∧ (∃ b, Ev.setMeta b ∈ pre) ∧
    Ev.opPoll ∈ pre ∧ Ev.instStart ∈ pre := by
  rcases render_trace_split cfg env workflow modelUrl with hnf |
    ⟨A, B, hAB, hnfA, ⟨nm, p, hup⟩, ⟨b, hsm⟩, hop, hstart⟩
  · exact (no_flagCheck_no_split _ pre post hnf hsplit).elim
  · rw [hAB] at hsplit
    exact ⟨⟨nm, p, mem_pre_of_split A _ B pre post hsplit hnfA hup⟩,
           ⟨b, mem_pre_of_split A _ B pre post hsplit hnfA hsm⟩,
           mem_pre_of_split A _ B pre post hsplit hnfA hop,
           mem_pre_of_split A _ B pre post hsplit hnfA hstart⟩

/-- C4 witness: at a concrete successful run, the upload, metadata
write, operation poll, and start call all sit before the first marker
check. -/
theorem C4_witness :
    Ev.opPoll ∈
      ([Ev.uploadJson "J.json"
          [("g", "1"), ("client_id", "J"), ("output_path", "/tmp/comfy-out")],
        Ev.instGet,
        Ev.setMeta ⟨"fp",
          [("startup-script-url", some "u"), ("job_workflow", some "gs://j/J.json"),
           ("model_uri", some "m"), ("output_bucket", some "gs://o/J/")]⟩,
        Ev.opPoll, Ev.instStart] : List Ev) ∧
    Ev.instStart ∈
      ([Ev.uploadJson "J.json"
          [("g", "1"), ("client_id", "J"), ("output_path", "/tmp/comfy-out")],
        Ev.instGet,
        Ev.setMeta ⟨"fp",
          [("startup-script-url", some "u"), ("job_workflow", some "gs://j/J.json"),
           ("model_uri", some "m"), ("output_bucket", some "gs://o/J/")]⟩,
        Ev.opPoll, Ev.instStart] : List Ev) := by
  have h := C4_handoff_order ⟨"gs://j", "gs://o", some "u"⟩
      ⟨"J", .ok (), .ok ⟨none, [], "fp", []⟩, .ok "op", [⟨"DONE", none⟩], .ok "op2",
       some 0, ["a.png"]⟩ [("g", "1")] "m"
      [Ev.uploadJson "J.json"
         [("g", "1"), ("client_id", "J"), ("output_path", "/tmp/comfy-out")],
       Ev.instGet,
       Ev.setMeta ⟨"fp",
         [("startup-script-url", some "u"), ("job_workflow", some "gs://j/J.json"),
          ("model_uri", some "m"), ("output_bucket", some "gs://o/J/")]⟩,
       Ev.opPoll, Ev.instStart]
      [Ev.listBlobs] (by decide)
  exact ⟨h.2.2.1, h.2.2.2⟩

end OnDemandSD
